import Mathlib

/-!
Shallow embedding of the catalog widget application: the asset resolver
(`getVariantImageUrl`), the catalog gateway (`CatalogService.fetchCatalog`),
the tool invocation callback (`show_pricing`), and the surface selection
lookup (`selectedCard` / `handleCardClick`), together with theorems about
their behaviour.

Modelling conventions: JavaScript `string | undefined` values are
`Option String` (with `none` for `undefined`/`null`); JavaScript truthiness
of such a value is `strTruthy`; `String.prototype.includes` is modelled as
infix containment on the character list; numeric identifiers are `Int`
(with JavaScript truthiness of a number `i` modelled as `i ≠ 0`).
-/

/-- Truthiness of a JavaScript `string | undefined` value: truthy iff present
and non-empty. -/
def strTruthy : Option String → Bool
  | none => false
  | some s => !(s == "")

/-- Containment of `sub` as a contiguous run inside `l`, the character-level
model of JavaScript `String.prototype.includes`. -/
def charsContain : List Char → List Char → Bool
  | [], sub => List.isPrefixOf sub ([] : List Char)
  | c :: t, sub => List.isPrefixOf sub (c :: t) || charsContain t sub

/-- JavaScript `s.includes(sub)` on strings. -/
def strIncludes (s sub : String) : Bool :=
  charsContain s.toList sub.toList

/-- JavaScript `s.toLowerCase()` (character-wise lowering; all strings the
program compares are ASCII). -/
def lowerStr (s : String) : String :=
  String.mk (s.data.map Char.toLower)

/-- JavaScript `s.trim()`: strip whitespace from both ends. -/
def jsTrim (s : String) : String :=
  String.mk (((s.data.dropWhile Char.isWhitespace).reverse.dropWhile
    Char.isWhitespace).reverse)

/-- Catalog item as declared in the `CatalogItem` interface. String-typed
fields are `Option String` because the remote data may omit them (the code
guards every access with `?.`/`||` fallbacks); JavaScript numbers that are
identifiers or counts are `Int`. -/
structure CatalogItem where
  id : Int
  service_name : Option String
  variant_name : Option String
  description : Option String
  price : Int
  market_price : Int
  currency : Option String
  rating : Option String
  customers : Int
  delivery_time : Int
  category : Option String
  page_url : Option String
  about : Option String
  unit : Option String
deriving DecidableEq

/-- Result of `CatalogService.fetchCatalog`. -/
structure CatalogResponse where
  catalog : List CatalogItem
  error : Option String
deriving DecidableEq

/-! ### AssetResolver: the location image map and `getVariantImageUrl` -/

def newYorkEmpireUrl : String :=
  "https://media.istockphoto.com/id/525232662/photo/new-york-empire-state-building-and-statue-of-liberty.jpg?s=1024x1024&w=is&k=20&c=9DG3g3gB1-c01RKG-Iinsigts2CtEGAQE2HoXLOYOhM="

def newYorkSkylineUrl : String :=
  "https://media.istockphoto.com/id/1406960186/photo/the-skyline-of-new-york-city-united-states.jpg?s=1024x1024&w=is&k=20&c=m5cYGPJsDS6nTsxYucy6jlCj7flGliYw6Lf4Ftg0jQs="

def sanFranciscoUrl : String :=
  "https://media.istockphoto.com/id/1136437406/photo/san-francisco-skyline-with-oakland-bay-bridge-at-sunset-california-usa.jpg?s=1024x1024&w=is&k=20&c=_UuntG09XSAMDFr7E2AVukaN6MWV5jLtnsbSorf-csA="

def chicagoUrl : String :=
  "https://media.istockphoto.com/id/1449046495/photo/chicago-river-and-cityscape.jpg?s=1024x1024&w=is&k=20&c=XyBkj-fVzvo0gbbt0Obf8qIhCpGofcC6bYbP2GSjk5g="

def charlestonUrl : String :=
  "https://media.istockphoto.com/id/1924853613/photo/charleston-south-carolina-usa-historic-cityscape.jpg?s=1024x1024&w=is&k=20&c=I8bgWkG76H3S_3QYUqF556Aif78HVVuHZQ3ebyOGBqc="

/-- The `locationImageMap` object, as an association list in its declared
key insertion order (which is the iteration order of `Object.entries` for
these non-numeric string keys). -/
def locationImageMap : List (String × String) :=
  [("new york", newYorkEmpireUrl),
   ("ny", newYorkSkylineUrl),
   ("new york city", newYorkSkylineUrl),
   ("california", sanFranciscoUrl),
   ("san francisco", sanFranciscoUrl),
   ("sf", sanFranciscoUrl),
   ("los angeles", sanFranciscoUrl),
   ("la", sanFranciscoUrl),
   ("delaware", chicagoUrl),
   ("chicago", chicagoUrl),
   ("charleston", charlestonUrl),
   ("south carolina", charlestonUrl),
   ("usa", chicagoUrl),
   ("united states", chicagoUrl),
   ("default", chicagoUrl)]

/-- The URL stored under the reserved `default` key of the map (the code
reads `locationImageMap.default` for its fallback). -/
def defaultEntryUrl : String :=
  ((List.find? (fun e => e.fst == "default") locationImageMap).map Prod.snd).getD ""

/-- The `getVariantImageUrl` function: concatenate the two optional names
separated by a space, lower-case, then return the URL of the first
non-`default` key contained in that text, else the `default` URL. -/
def getVariantImageUrl (variantName serviceName : Option String) : String :=
  let searchText := lowerStr ((variantName.getD "") ++ " " ++ (serviceName.getD ""))
  match List.find? (fun e => e.fst != "default" && strIncludes searchText e.fst)
      locationImageMap with
  | some e => e.snd
  | none => defaultEntryUrl

/-! ### CatalogGateway: `CatalogService.fetchCatalog` -/

/-- Error message of the missing-credential branch of `fetchCatalog`. -/
def missingKeyMsg : String :=
  "API key not configured. Please set CATALOG_API_KEY environment variable."

/-- The API key assigned in the `CatalogService` constructor: a hard-coded
string constant (the constructor never reads `process.env.CATALOG_API_KEY`). -/
def constructorApiKey : Option String :=
  some "p4xI6QzOPI4EyFg38qtcJ1nImIFru7zW3LcrSIOh"

/-- One property of a parsed JSON response object: absent, an array of
items, or a non-array value (recording only its truthiness, which is all
the code inspects). -/
inductive JsProp where
  | absent
  | arrVal (xs : List CatalogItem)
  | nonArr (truthy : Bool)
deriving DecidableEq

/-- A parsed successful response body: a bare array, the JSON `null` value
(on which any property read throws a `TypeError`), or any other JSON value,
of which the code only reads the `catalog` and `data` properties. A
primitive body (string, number, boolean) is boxed by JavaScript property
access and yields `undefined` for both reads, so it behaves exactly like —
and is represented by — `obj .absent .absent`. -/
inductive JsBody where
  | arr (xs : List CatalogItem)
  | jsonNull
  | obj (catalogProp dataProp : JsProp)
deriving DecidableEq

/-- JavaScript `Array.isArray` on a property value. -/
def isArrayProp : JsProp → Bool
  | .arrVal _ => true
  | _ => false

/-- JavaScript truthiness of a property value (`undefined` falsy, arrays
always truthy, non-arrays as recorded). -/
def propTruthy : JsProp → Bool
  | .absent => false
  | .arrVal _ => true
  | .nonArr t => t

/-- The item list held by an array-valued property (only read under an
`isArrayProp` guard). -/
def propArr : JsProp → List CatalogItem
  | .arrVal xs => xs
  | _ => []

/-- Message of the `TypeError` thrown by the `data.catalog` property read
when the parsed body is JSON `null` (V8 wording). -/
def nullReadErrMsg : String :=
  "Cannot read properties of null (reading \x27catalog\x27)"

/-- Shape normalization of `fetchCatalog`, executed inside its try block:
bare array, else `data.catalog && Array.isArray(data.catalog)`, else
`data.data && Array.isArray(data.data)`, else empty. On a JSON `null` body
the first check `Array.isArray(data)` is false and the property read
`data.catalog` then throws a `TypeError`, modelled as the `.error` case. -/
def normalizeBody : JsBody → Except String (List CatalogItem)
  | .arr xs => .ok xs
  | .jsonNull => .error nullReadErrMsg
  | .obj c d =>
    if propTruthy c && isArrayProp c then .ok (propArr c)
    else if propTruthy d && isArrayProp d then .ok (propArr d)
    else .ok []

/-- Outcome of the single `fetch` attempt inside `fetchCatalog`: a non-ok
HTTP response, a thrown exception (`some m` an `Error` with message `m`,
`none` a non-`Error` value), or a successful response with a parsed body. -/
inductive FetchOutcome where
  | httpFail (status : Nat) (statusText : String)
  | exnFail (message : Option String)
  | success (body : JsBody)
deriving DecidableEq

/-- The `fetchCatalog` method, parametrised by the configured key and the
transport outcome; the second component counts outbound network requests
made by the call. -/
def fetchCatalogT (apiKey : Option String) (outcome : FetchOutcome) :
    CatalogResponse × Nat :=
  if !(strTruthy apiKey) then
    ({ catalog := [], error := some missingKeyMsg }, 0)
  else
    match outcome with
    | .httpFail status statusText =>
        ({ catalog := [],
           error := some ("Failed to fetch catalog: " ++ toString status ++ " " ++ statusText) }, 1)
    | .exnFail msg =>
        ({ catalog := [], error := some (msg.getD "Failed to fetch catalog data") }, 1)
    | .success body =>
        match normalizeBody body with
        | .ok catalog => ({ catalog := catalog, error := none }, 1)
        | .error msg => ({ catalog := [], error := some msg }, 1)

/-! ### FilterEngine and InvocationAdapter: the `show_pricing` tool callback -/

/-- The per-item predicate of the tool callback filter: the lower-cased,
trimmed query occurs in the lower-cased service name, variant name, or
category, each defaulting to the empty string when absent. -/
def matchesQuery (serviceName : String) (item : CatalogItem) : Bool :=
  let searchTerm := jsTrim (lowerStr serviceName)
  let serviceNameLower := ((item.service_name).map lowerStr).getD ""
  let variantNameLower := ((item.variant_name).map lowerStr).getD ""
  let categoryLower := ((item.category).map lowerStr).getD ""
  strIncludes serviceNameLower searchTerm ||
    strIncludes variantNameLower searchTerm ||
    strIncludes categoryLower searchTerm

/-- The filtering step of the tool callback:
`serviceName ? catalog.filter(...) : catalog`. -/
def filterCatalog (catalog : List CatalogItem) (serviceName : Option String) :
    List CatalogItem :=
  if strTruthy serviceName then
    catalog.filter (matchesQuery (serviceName.getD ""))
  else catalog

/-- Observable result of one `show_pricing` invocation: the textual summary
and the fields of `structuredContent`. -/
structure ToolResult where
  text : String
  structuredServiceName : Option String
  catalog : List CatalogItem
  count : Option Nat
  message : Option String
  error : Option String
deriving DecidableEq

/-- The `show_pricing` tool callback, parametrised by the `fetchCatalog`
result and the optional `serviceName` argument. -/
def showPricing (resp : CatalogResponse) (serviceName : Option String) : ToolResult :=
  if strTruthy resp.error then
    { text := "Error fetching catalog: " ++ (resp.error).getD "" ++
        ". Please check the API configuration.",
      structuredServiceName := if strTruthy serviceName then serviceName else none,
      catalog := [], count := none, message := none, error := resp.error }
  else
    let filteredCatalog := filterCatalog resp.catalog serviceName
    if filteredCatalog.length == 0 then
      { text := if strTruthy serviceName then
          "No services found matching \"" ++ serviceName.getD "" ++
            "\". Showing all available services."
        else "No services available in the catalog.",
        structuredServiceName := if strTruthy serviceName then serviceName else none,
        catalog := resp.catalog,
        count := some resp.catalog.length,
        message := some (if strTruthy serviceName then
          "No matching services found, showing all" else "No services available"),
        error := none }
    else
      { text := "Found " ++ toString filteredCatalog.length ++ " service(s)" ++
          (if strTruthy serviceName then
            " matching \"" ++ serviceName.getD "" ++ "\"" else "") ++ ".",
        structuredServiceName := if strTruthy serviceName then serviceName else none,
        catalog := filteredCatalog,
        count := some filteredCatalog.length,
        message := none, error := none }

/-! ### SurfaceController: persisted selection -/

/-- The persisted widget state: `{ selectedCardId: number | null }`. -/
structure WidgetState where
  selectedCardId : Option Int
deriving DecidableEq

/-- The `selectedCard` computation of the `Home` component:
`widgetState?.selectedCardId ? catalog.find(item => item.id === id) || null : null`,
where a stored identifier of `0` is falsy. -/
def selectedCard (catalog : List CatalogItem) (ws : Option WidgetState) :
    Option CatalogItem :=
  match ws with
  | none => none
  | some w =>
    match w.selectedCardId with
    | none => none
    | some i => if i ≠ 0 then List.find? (fun item => item.id == i) catalog else none

/-- The `handleCardClick` handler: store the clicked item identifier. -/
def handleCardClick (item : CatalogItem) : WidgetState :=
  { selectedCardId := some item.id }

/-- The `handleCloseDetails` handler: clear the stored identifier. -/
def handleCloseDetails : WidgetState :=
  { selectedCardId := none }

/-! ### Helper lemmas and sample data -/

theorem charsContain_nil_right (l : List Char) : charsContain l [] = true := by
  induction l with
  | nil => rfl
  | cons c t ih => simp [charsContain, ih]

theorem strIncludes_empty_right (s : String) : strIncludes s "" = true := by
  show charsContain s.toList [] = true
  exact charsContain_nil_right s.toList

theorem isPrefixOf_append_self (l b : List Char) :
    List.isPrefixOf l (l ++ b) = true := by
  induction l with
  | nil => simp
  | cons c t ih => simp [List.isPrefixOf, ih]

theorem charsContain_sandwich (a s b : List Char) :
    charsContain (a ++ s ++ b) s = true := by
  induction a with
  | nil =>
    cases s with
    | nil => simpa using charsContain_nil_right b
    | cons c t =>
      have hpre := isPrefixOf_append_self (c :: t) b
      simp [charsContain, hpre]
  | cons x a ih =>
    have ih2 : charsContain (a ++ (s ++ b)) s = true := by
      simpa [List.append_assoc] using ih
    simp [charsContain, ih, ih2]

theorem strIncludes_of_middle (t s : String) (h : s.data <:+: t.data) :
    strIncludes t s = true := by
  obtain ⟨u, v, huv⟩ := h
  show charsContain t.data s.data = true
  rw [← huv]
  exact charsContain_sandwich u s.data v

theorem map_lower_getD (o : Option String) :
    (o.map lowerStr).getD "" = lowerStr (o.getD "") := by
  cases o with
  | none => rfl
  | some s => rfl

theorem matchesQuery_eq (q : String) (item : CatalogItem) :
    matchesQuery q item =
      (strIncludes (lowerStr ((item.service_name).getD "")) (jsTrim (lowerStr q)) ||
       strIncludes (lowerStr ((item.variant_name).getD "")) (jsTrim (lowerStr q)) ||
       strIncludes (lowerStr ((item.category).getD "")) (jsTrim (lowerStr q))) := by
  simp [matchesQuery, map_lower_getD]

/-- Sample item used as concrete input in witnesses. -/
def itemAcme : CatalogItem :=
  { id := 1, service_name := some "Acme Registration", variant_name := some "Gold",
    description := none, price := 100, market_price := 150, currency := some "USD",
    rating := none, customers := 5, delivery_time := 3, category := some "Business",
    page_url := none, about := none, unit := none }

/-- Sample item with identifier `7`. -/
def itemSeven : CatalogItem :=
  { id := 7, service_name := some "Acme Registration", variant_name := some "Silver",
    description := none, price := 50, market_price := 60, currency := some "USD",
    rating := none, customers := 2, delivery_time := 4, category := some "Business",
    page_url := none, about := none, unit := none }

/-- Sample item with identifier `8`. -/
def itemEight : CatalogItem :=
  { id := 8, service_name := some "Acme Registration", variant_name := some "Bronze",
    description := none, price := 20, market_price := 25, currency := some "USD",
    rating := none, customers := 1, delivery_time := 5, category := some "Business",
    page_url := none, about := none, unit := none }

/-- Sample item with identifier `0`. -/
def itemZero : CatalogItem :=
  { id := 0, service_name := some "Acme Registration", variant_name := some "Free",
    description := none, price := 0, market_price := 0, currency := some "USD",
    rating := none, customers := 0, delivery_time := 1, category := some "Business",
    page_url := none, about := none, unit := none }

/-! ### Claim theorems -/

set_option maxRecDepth 20000 in
/-- C2 counterexample: `getVariantImageUrl (some "Atlantis") (some "Mystery Co")`
does not return the URL stored under the reserved `default` key, contrary to
the claim that no location keyword matches this input. -/
theorem c2_counterexample :
    getVariantImageUrl (some "Atlantis") (some "Mystery Co") ≠ defaultEntryUrl := by
  decide

set_option maxRecDepth 20000 in
/-- C2 amended: `getVariantImageUrl (some "Atlantis") (some "Mystery Co")`
returns the URL stored under the `la` keyword (the Los Angeles / San
Francisco image), because the keyword `la` occurs as a substring of the
lower-cased search text `atlantis mystery co`; it does not return the
`default` URL. -/
theorem c2_amended_la_match :
    getVariantImageUrl (some "Atlantis") (some "Mystery Co") = sanFranciscoUrl ∧
    List.lookup "la" locationImageMap = some sanFranciscoUrl ∧
    strIncludes (lowerStr ("Atlantis" ++ " " ++ "Mystery Co")) "la" = true ∧
    sanFranciscoUrl ≠ defaultEntryUrl := by
  refine ⟨by decide, by decide, by decide, by decide⟩

/-- C5: for every item list and every query, the tool callback filter
returns a sublist of its input (a subset in original relative order), and
an absent or empty query leaves the list unchanged. -/
theorem c5_filter_sublist_identity (items : List CatalogItem) (q : Option String) :
    List.Sublist (filterCatalog items q) items ∧
    filterCatalog items none = items ∧
    filterCatalog items (some "") = items := by
  refine ⟨?_, rfl, rfl⟩
  unfold filterCatalog
  by_cases h : strTruthy q = true
  · simp only [h, if_pos]
    exact List.filter_sublist items
  · simp only [Bool.not_eq_true] at h
    simp only [h, Bool.false_eq_true, if_neg, not_false_iff]
    exact List.Sublist.refl items

/-- C6: when the configured credential is absent or unset (falsy), every
call of `fetchCatalog` returns an empty catalog together with the non-empty
missing-credential error message and performs zero outbound network
requests, regardless of what the transport would have done. -/
theorem c6_missing_credential (key : Option String) (o : FetchOutcome)
    (hk : strTruthy key = false) :
    (fetchCatalogT key o).1.catalog = [] ∧
    (fetchCatalogT key o).1.error = some missingKeyMsg ∧
    missingKeyMsg ≠ "" ∧
    (fetchCatalogT key o).2 = 0 := by
  refine ⟨?_, ?_, by decide, ?_⟩ <;> simp [fetchCatalogT, hk]

/-- C6 witness: a concrete call with no configured key. -/
theorem c6_witness :
    (fetchCatalogT none (FetchOutcome.exnFail none)).1.catalog = [] ∧
    (fetchCatalogT none (FetchOutcome.exnFail none)).1.error = some missingKeyMsg ∧
    missingKeyMsg ≠ "" ∧
    (fetchCatalogT none (FetchOutcome.exnFail none)).2 = 0 :=
  c6_missing_credential none (FetchOutcome.exnFail none) rfl

/-- C9: the `CatalogService` constructor assigns a non-empty hard-coded
string constant as the API key (never reading the `CATALOG_API_KEY`
environment variable its error message names), so the missing-credential
guard of `fetchCatalog` is never taken and every call performs exactly one
outbound network request. -/
theorem c9_hardcoded_key_always_fetches (o : FetchOutcome) :
    constructorApiKey = some "p4xI6QzOPI4EyFg38qtcJ1nImIFru7zW3LcrSIOh" ∧
    strTruthy constructorApiKey = true ∧
    (fetchCatalogT constructorApiKey o).2 = 1 := by
  refine ⟨rfl, by decide, ?_⟩
  cases o with
  | httpFail status statusText => simp [fetchCatalogT, constructorApiKey, strTruthy]
  | exnFail m => simp [fetchCatalogT, constructorApiKey, strTruthy]
  | success body =>
    cases hnb : normalizeBody body <;>
      simp [fetchCatalogT, constructorApiKey, strTruthy, hnb]

/-- C10: when a displayed item has identifier `0`, clicking it stores `0`
in the widget state, but the falsy guard in the `selectedCard` lookup then
resolves the selection to `none`, so the item can never show its detail
view. -/
theorem c10_zero_id_never_selected (catalog : List CatalogItem)
    (item : CatalogItem) (hmem : item ∈ catalog) (h0 : item.id = 0) :
    selectedCard catalog (some (handleCardClick item)) = none := by
  simp [selectedCard, handleCardClick, h0]

/-- C10 witness: the concrete zero-identifier item inside a singleton
displayed set. -/
theorem c10_witness :
    selectedCard [itemZero] (some (handleCardClick itemZero)) = none :=
  c10_zero_id_never_selected [itemZero] itemZero (by decide) rfl

/-- C8: the resolved selected card is always an element of the currently
displayed set carrying the stored identifier, and when the displayed set
holds no item with the stored identifier the resolution is `none` (a lookup
miss, not an error). -/
theorem c8_selection_resolves_in_displayed (catalog : List CatalogItem)
    (ws : Option WidgetState) :
    (∀ item, selectedCard catalog ws = some item →
      item ∈ catalog ∧ Option.bind ws WidgetState.selectedCardId = some item.id) ∧
    (∀ i, Option.bind ws WidgetState.selectedCardId = some i →
      (∀ item, item ∈ catalog → item.id ≠ i) →
      selectedCard catalog ws = none) := by
  constructor
  · intro item h
    cases ws with
    | none => simp [selectedCard] at h
    | some w =>
      cases hsel : w.selectedCardId with
      | none => simp [selectedCard, hsel] at h
      | some i =>
        by_cases hi : i = 0
        · subst hi
          simp [selectedCard, hsel] at h
        · simp only [selectedCard, hsel, hi, ne_eq, not_false_iff, if_true] at h
          have hmem := List.mem_of_find?_eq_some h
          have hbeq := List.find?_some h
          have hid : item.id = i := by simpa using hbeq
          exact ⟨hmem, by simp [Option.bind, hsel, hid]⟩
  · intro i hi hnone
    cases ws with
    | none => rfl
    | some w =>
      have hsel : w.selectedCardId = some i := by simpa [Option.bind] using hi
      by_cases hi0 : i = 0
      · simp [selectedCard, hsel, hi0]
      · simp only [selectedCard, hsel, hi0, ne_eq, not_false_iff, if_true]
        rw [List.find?_eq_none]
        intro x hx
        simp only [beq_iff_eq]
        exact hnone x hx
  
/-- C8 witness: identifier `7` resolves to the displayed item carrying it,
and after a data set without identifier `7` arrives the resolution is
`none`. -/
theorem c8_witness :
    (itemSeven ∈ [itemSeven] ∧
      Option.bind (some (WidgetState.mk (some 7))) WidgetState.selectedCardId =
        some itemSeven.id) ∧
    selectedCard [itemEight] (some (WidgetState.mk (some 7))) = none :=
  ⟨(c8_selection_resolves_in_displayed [itemSeven] (some (WidgetState.mk (some 7)))).1
      itemSeven (by decide),
   (c8_selection_resolves_in_displayed [itemEight] (some (WidgetState.mk (some 7)))).2
      7 rfl (by decide)⟩

/-- C1: when the fetch succeeded, a (truthy) query was supplied, filtering
yields nothing while the fetched set is non-empty, the tool invocation
returns the full unfiltered set with its count, a diagnostic message, and a
summary noting the query had no matches, instead of an empty result. -/
theorem c1_no_match_fallback (resp : CatalogResponse) (q : String)
    (hq : q ≠ "") (hok : resp.error = none)
    (hempty : filterCatalog resp.catalog (some q) = [])
    (hfull : resp.catalog ≠ []) :
    (showPricing resp (some q)).catalog = resp.catalog ∧
    (showPricing resp (some q)).count = some resp.catalog.length ∧
    (showPricing resp (some q)).message =
      some "No matching services found, showing all" ∧
    (showPricing resp (some q)).text =
      "No services found matching \"" ++ q ++ "\". Showing all available services." ∧
    (showPricing resp (some q)).error = none := by
  have htr : strTruthy (some q) = true := by
    simp [strTruthy, hq]
  simp [showPricing, hok, hempty, htr, strTruthy, hq]

/-- C1 witness: a one-item catalog and the query `zzz` that matches
nothing. -/
theorem c1_witness :
    (showPricing { catalog := [itemAcme], error := none } (some "zzz")).catalog =
      ({ catalog := [itemAcme], error := none } : CatalogResponse).catalog ∧
    (showPricing { catalog := [itemAcme], error := none } (some "zzz")).count =
      some ({ catalog := [itemAcme], error := none } : CatalogResponse).catalog.length ∧
    (showPricing { catalog := [itemAcme], error := none } (some "zzz")).message =
      some "No matching services found, showing all" ∧
    (showPricing { catalog := [itemAcme], error := none } (some "zzz")).text =
      "No services found matching \"" ++ "zzz" ++ "\". Showing all available services." ∧
    (showPricing { catalog := [itemAcme], error := none } (some "zzz")).error = none :=
  c1_no_match_fallback { catalog := [itemAcme], error := none } "zzz"
    (by decide) rfl (by decide) (by decide)

theorem isArrayProp_eq_false_of (c : JsProp) (hc : ∀ ys, c ≠ JsProp.arrVal ys) :
    isArrayProp c = false := by
  cases c with
  | absent => rfl
  | arrVal xs => exact absurd rfl (hc xs)
  | nonArr t => rfl

/-- C3 counterexample: with a configured credential, a successful response
whose parsed body is JSON `null` is a shape other than the three accepted
ones, yet it does not normalize to the empty list with no error set: the
`data.catalog` property read throws and the catch turns the call into an
error result. -/
theorem c3_counterexample :
    (fetchCatalogT (some "k") (FetchOutcome.success JsBody.jsonNull)).1.error ≠
      none ∧
    (fetchCatalogT (some "k") (FetchOutcome.success JsBody.jsonNull)).1.error =
      some nullReadErrMsg := by
  refine ⟨by decide, by decide⟩

/-- C3 amended: with a configured credential, a successful response body is
normalized from exactly three shapes — a bare array, an object with a
`catalog` array, or an object with a `data` array — each yielding the
contained list unchanged with no error; every other array or object body
(which also represents primitive non-null bodies) yields the empty list
with no error; the JSON `null` body is the exception: the property read
throws inside the try block and the call returns an empty catalog with a
non-empty error message. -/
theorem c3_amended_shape_normalization (key : String) (hk : key ≠ "")
    (xs : List CatalogItem) (c d : JsProp)
    (hc : ∀ ys, c ≠ JsProp.arrVal ys) (hd : ∀ ys, d ≠ JsProp.arrVal ys) :
    (fetchCatalogT (some key) (FetchOutcome.success (JsBody.arr xs))).1 =
      { catalog := xs, error := none } ∧
    (∀ p, (fetchCatalogT (some key)
        (FetchOutcome.success (JsBody.obj (JsProp.arrVal xs) p))).1 =
      { catalog := xs, error := none }) ∧
    (fetchCatalogT (some key)
        (FetchOutcome.success (JsBody.obj c (JsProp.arrVal xs)))).1 =
      { catalog := xs, error := none } ∧
    (fetchCatalogT (some key) (FetchOutcome.success (JsBody.obj c d))).1 =
      { catalog := [], error := none } ∧
    (fetchCatalogT (some key) (FetchOutcome.success JsBody.jsonNull)).1 =
      { catalog := [], error := some nullReadErrMsg } ∧
    nullReadErrMsg ≠ "" := by
  have htr : strTruthy (some key) = true := by
    simp [strTruthy, hk]
  have hca := isArrayProp_eq_false_of c hc
  have hda := isArrayProp_eq_false_of d hd
  refine ⟨?_, fun p => ?_, ?_, ?_, ?_, by decide⟩ <;>
    simp [fetchCatalogT, htr, normalizeBody, propTruthy, propArr, isArrayProp,
      hca, hda]

/-- C3 witness: concrete instances of all four non-null shapes and the JSON
`null` body with a configured key. -/
theorem c3_amended_witness :
    (fetchCatalogT (some "k") (FetchOutcome.success (JsBody.arr [itemAcme]))).1 =
      { catalog := [itemAcme], error := none } ∧
    (fetchCatalogT (some "k") (FetchOutcome.success
        (JsBody.obj (JsProp.arrVal [itemAcme]) JsProp.absent))).1 =
      { catalog := [itemAcme], error := none } ∧
    (fetchCatalogT (some "k") (FetchOutcome.success
        (JsBody.obj (JsProp.nonArr true) (JsProp.arrVal [itemAcme])))).1 =
      { catalog := [itemAcme], error := none } ∧
    (fetchCatalogT (some "k") (FetchOutcome.success
        (JsBody.obj (JsProp.nonArr true) JsProp.absent))).1 =
      { catalog := [], error := none } ∧
    (fetchCatalogT (some "k") (FetchOutcome.success JsBody.jsonNull)).1 =
      { catalog := [], error := some nullReadErrMsg } :=
  have h := c3_amended_shape_normalization "k" (by decide) [itemAcme]
    (JsProp.nonArr true) JsProp.absent
    (fun ys h => JsProp.noConfusion h) (fun ys h => JsProp.noConfusion h)
  ⟨h.1, h.2.1 JsProp.absent, h.2.2.1, h.2.2.2.1, h.2.2.2.2.1⟩

/-- C4: the tool callback filter keeps a single item exactly when the
lower-cased, trimmed query occurs as a substring of the lower-cased service
name, variant name, or category, a missing field counting as the empty
string. -/
theorem c4_single_item_filter (item : CatalogItem) (q : String) :
    filterCatalog [item] (some q) = [item] ↔
      (strIncludes (lowerStr ((item.service_name).getD "")) (jsTrim (lowerStr q)) = true ∨
       strIncludes (lowerStr ((item.variant_name).getD "")) (jsTrim (lowerStr q)) = true ∨
       strIncludes (lowerStr ((item.category).getD "")) (jsTrim (lowerStr q)) = true) := by
  by_cases hq : q = ""
  · subst hq
    constructor
    · intro _
      left
      have hnil : jsTrim (lowerStr "") = "" := rfl
      rw [hnil]
      exact strIncludes_empty_right _
    · intro _
      rfl
  · have htr : strTruthy (some q) = true := by
      simp [strTruthy, hq]
    have hfc : filterCatalog [item] (some q) =
        if matchesQuery q item then [item] else [] := by
      simp [filterCatalog, htr, List.filter_cons]
    rw [hfc, matchesQuery_eq]
    split
    next hcond =>
      simp_all [Bool.or_eq_true]
      tauto
    next hcond =>
      simp_all [Bool.or_eq_true]

/-- C7 counterexample: a successful one-item fetch with the query `qqq`
matching nothing produces a non-error result whose summary does not contain
the decimal count of the items returned (the fallback summary carries no
number at all, although one item is returned). -/
theorem c7_counterexample :
    (showPricing { catalog := [itemAcme], error := none } (some "qqq")).error = none ∧
    strIncludes (showPricing { catalog := [itemAcme], error := none } (some "qqq")).text
      (toString
        (showPricing { catalog := [itemAcme], error := none } (some "qqq")).catalog.length) =
      false := by
  decide

/-- C7 amended: for every non-error invocation result the summary echoes
the query whenever a (truthy) query was supplied, and it states the number
of items returned whenever the filtered set is non-empty; the no-match
fallback summary omits the count. -/
theorem c7_amended_summary (resp : CatalogResponse) (q : Option String)
    (hok : resp.error = none) :
    (∀ s, q = some s → s ≠ "" →
      strIncludes (showPricing resp q).text s = true) ∧
    (filterCatalog resp.catalog q ≠ [] →
      strIncludes (showPricing resp q).text
        (toString (showPricing resp q).catalog.length) = true) := by
  cases hfl : filterCatalog resp.catalog q with
  | nil =>
    constructor
    · intro s hs hsne
      subst hs
      have htr : strTruthy (some s) = true := by
        simp [strTruthy, hsne]
      have htext : (showPricing resp (some s)).text =
          "No services found matching \"" ++ s ++
            "\". Showing all available services." := by
        simp [showPricing, hok, hfl, htr, strTruthy, hsne]
      rw [htext]
      apply strIncludes_of_middle
      refine ⟨("No services found matching \"").data,
        ("\". Showing all available services.").data, ?_⟩
      simp
    · intro hne
      exact absurd rfl hne
  | cons x xs =>
    have htext : (showPricing resp q).text =
        "Found " ++ toString (x :: xs).length ++ " service(s)" ++
          (if strTruthy q then " matching \"" ++ q.getD "" ++ "\"" else "") ++
          "." := by
      simp [showPricing, hok, hfl, strTruthy]
    have hcat : (showPricing resp q).catalog = x :: xs := by
      simp [showPricing, hok, hfl, strTruthy]
    constructor
    · intro s hs hsne
      subst hs
      have htr : strTruthy (some s) = true := by
        simp [strTruthy, hsne]
      rw [htext, htr]
      simp only [if_true, Option.getD_some]
      apply strIncludes_of_middle
      refine ⟨("Found " ++ toString (x :: xs).length ++ " service(s)" ++
        " matching \"").data, ("\"" ++ ".").data, ?_⟩
      simp
    · intro _
      rw [htext, hcat]
      apply strIncludes_of_middle
      refine ⟨("Found ").data,
        (" service(s)" ++
          (if strTruthy q then " matching \"" ++ q.getD "" ++ "\"" else "") ++
          ".").data, ?_⟩
      simp

/-- C7 witness: a matching query on a one-item catalog, whose summary both
echoes the query and contains the count `1`. -/
theorem c7_witness :
    strIncludes (showPricing { catalog := [itemAcme], error := none } (some "acme")).text
      "acme" = true ∧
    strIncludes (showPricing { catalog := [itemAcme], error := none } (some "acme")).text
      (toString
        (showPricing { catalog := [itemAcme], error := none } (some "acme")).catalog.length) =
      true :=
  have h := c7_amended_summary { catalog := [itemAcme], error := none } (some "acme") rfl
  ⟨h.1 "acme" rfl (by decide), h.2 (by decide)⟩
